import Mathlib

/-!
Verification development for the NUT-ORDERS-REPORT server
(`src/server.js`): a shallow embedding of the order normalizer
`transformOrderToWooFormat`, the export row expansion of the
`/export-orders` route, and the paginated fetcher `fetchAllOrders`,
together with theorems settling the specification claims.

Modelling conventions:
- A JavaScript field that may be `undefined` or `null` is an `Option`;
  `none` covers both absent cases.
- JavaScript string truthiness (`undefined`, `null` and `""` are falsy)
  is captured by `jsTruthy`; `a || b || ""` chains become `jsOr2`.
- Numbers that the code treats as integers (Shopify ids, quantities)
  are `Int`; `0` is falsy as in JavaScript.
- A thrown `TypeError` is an `Except.error`; the normal return is
  `Except.ok`.
- The `moment` date rendering is abstracted by two parameters: `fmt`,
  the deterministic rendering of a present timestamp string through
  `moment(s).utcOffset(..).format(..)`, and `now`, the string that the
  same chain renders for the current instant - because
  `moment(undefined)` denotes the current clock time.
-/

set_option autoImplicit false
set_option maxRecDepth 10000

namespace NutOrders

/-- JavaScript truthiness on an optional string: `none` for
`undefined`/`null`/`""`, `some s` for a non-empty string `s`. -/
def jsTruthy : Option String → Option String
  | some s => if s = "" then none else some s
  | none => none

/-- `a || d` where `d` is a string literal default: the JS chain yields
`a` when truthy, otherwise the default. -/
def jsOrS (a : Option String) (d : String) : String :=
  (jsTruthy a).getD d

/-- `a || b || d`: first truthy of `a`, `b`, else the default `d`. -/
def jsOr2 (a b : Option String) (d : String) : String :=
  match jsTruthy a with
  | some s => s
  | none => jsOrS b d

/-- `.replace(/\s/g, "")`: remove every whitespace character. -/
def stripWs (s : String) : String :=
  String.mk (s.data.filter (fun c => ¬ c.isWhitespace))

/-- Remove the first occurrence of a character, if any: models
`.replace("#", "")`, which replaces only the first match of a plain
string pattern. -/
def removeFirstChar (target : Char) : List Char → List Char
  | [] => []
  | c :: cs => if c = target then cs else c :: removeFirstChar target cs

/-- `.replace("#", "")` on a string. -/
def removeFirstHash (s : String) : String :=
  String.mk (removeFirstChar (Char.ofNat 35) s.data)

/-- A Shopify address object (`billing_address` / `shipping_address`);
every member the code reads is optional. -/
structure Address where
  first_name : Option String := none
  last_name : Option String := none
  company : Option String := none
  address1 : Option String := none
  address2 : Option String := none
  city : Option String := none
  province_code : Option String := none
  zip : Option String := none
  country_code : Option String := none
  phone : Option String := none
  email : Option String := none
  deriving Repr, DecidableEq

/-- One entry of `order.discount_codes`. -/
structure DiscountCode where
  code : Option String := none
  deriving Repr, DecidableEq

/-- `shop_money` inside `total_shipping_price_set`. -/
structure ShopMoney where
  amount : Option String := none
  deriving Repr, DecidableEq

/-- `order.total_shipping_price_set`. -/
structure PriceSet where
  shop_money : Option ShopMoney := none
  deriving Repr, DecidableEq

/-- One entry of `order.shipping_lines`. -/
structure ShippingLine where
  title : Option String := none
  deriving Repr, DecidableEq

/-- A Shopify line item, with the members `transformOrderToWooFormat`
reads. -/
structure LineItem where
  id : Option Int := none
  sku : Option String := none
  name : Option String := none
  title : Option String := none
  quantity : Option Int := none
  price : Option String := none
  total_discount : Option String := none
  deriving Repr, DecidableEq

/-- A Shopify order, with the members the server reads. -/
structure RawOrder where
  id : Option Int := none
  name : Option String := none
  email : Option String := none
  phone : Option String := none
  note : Option String := none
  financial_status : Option String := none
  created_at : Option String := none
  processed_at : Option String := none
  billing_address : Option Address := none
  shipping_address : Option Address := none
  payment_gateway_names : Option (List String) := none
  total_discounts : Option String := none
  subtotal_price : Option String := none
  total_price : Option String := none
  total_tax : Option String := none
  total_shipping_price : Option String := none
  total_shipping_price_set : Option PriceSet := none
  shipping_lines : Option (List ShippingLine) := none
  discount_codes : Option (List DiscountCode) := none
  line_items : Option (List LineItem) := none
  deriving Repr, DecidableEq

/-- The flat export record built by `transformOrderToWooFormat`. The
source object has 41 named members; `Option`-typed members here are the
ones whose JavaScript value can be `undefined` (`Item #` when the line
item has no id, `Item Name` when both `name` and `title` are absent). -/
structure FlatRow where
  orderNumber : String
  orderStatus : String
  orderDate : String
  customerNote : String
  firstNameBilling : String
  lastNameBilling : String
  companyBilling : String
  addressBilling : String
  cityBilling : String
  stateCodeBilling : String
  postcodeBilling : String
  countryCodeBilling : String
  emailShipping : String
  paidDate : String
  phoneShipping : String
  phoneBilling : String
  firstNameShipping : String
  lastNameShipping : String
  addressShipping : String
  cityShipping : String
  stateCodeShipping : String
  postcodeShipping : String
  countryCodeShipping : String
  paymentMethodTitle : String
  cartDiscountAmount : String
  orderSubtotalAmount : String
  shippingMethodTitle : String
  orderShippingAmount : String
  orderRefundAmount : String
  orderTotalAmount : String
  orderTotalTaxAmount : String
  sku : String
  itemId : Option Int
  itemName : Option String
  quantity : Int
  itemCost : String
  couponCode : String
  discountAmount : String
  discountAmountTax : String
  cityCode : String
  carrierCode : String

/-- `(order.name || order.id).toString().replace("#", "")`: when
`order.name` is truthy it is used; otherwise `order.id` is used when
present (`0` still has a `toString`); when both are absent the chain
throws a `TypeError` on `undefined`. -/
def orderNumberValue (order : RawOrder) : Except String String :=
  match jsTruthy order.name with
  | some s => Except.ok (removeFirstHash s)
  | none =>
    match order.id with
    | some n => Except.ok (removeFirstHash (toString n))
    | none => Except.error "TypeError: Cannot read toString of undefined"

/-- The mapped function `dc => dc.code.replace(/\s/g, "")`: strips the
whitespace of one discount code, throwing a `TypeError` when the
`code` member is absent. -/
def codeValue (dc : DiscountCode) : Except String String :=
  match dc.code with
  | some c => Except.ok (stripWs c)
  | none => Except.error "TypeError: Cannot read replace of undefined"

/-- `.map(dc => ...)` over the discount codes: evaluates `codeValue`
left to right, propagating the first `TypeError`. -/
def mapCodes : List DiscountCode → Except String (List String)
  | [] => Except.ok []
  | dc :: rest => do
    let c ← codeValue dc
    let cs ← mapCodes rest
    Except.ok (c :: cs)

/-- `order.discount_codes?.map(dc => dc.code.replace(/\s/g, "")).join(",") || ""`:
absent list gives `""` (so does an empty join, which is the same
string). -/
def couponCodeValue (order : RawOrder) : Except String String :=
  match order.discount_codes with
  | none => Except.ok ""
  | some dcs => do
    let codes ← mapCodes dcs
    Except.ok (String.intercalate "," codes)

/-- `moment(ts).utcOffset("+02:00").format("YYYY-MM-DD HH:mm")` where
`ts` may be absent: `moment(undefined)` denotes the current instant, so
an absent timestamp renders as `now`. -/
def momentFmt (fmt : String → String) (now : String) : Option String → String
  | some s => fmt s
  | none => now

/-! Per-column value functions of `transformOrderToWooFormat`
(src/server.js lines 153-202), one definition per member of the
returned object literal, in source order.  Factoring each column out
keeps every definition a direct transcription of one source line. -/

/-- `order.financial_status || "pending"`. -/
def valOrderStatus (order : RawOrder) : String :=
  jsOrS order.financial_status "pending"

/-- `moment(order.created_at).utcOffset("+02:00").format("YYYY-MM-DD HH:mm")`. -/
def valOrderDate (fmt : String → String) (now : String) (order : RawOrder) : String :=
  momentFmt fmt now order.created_at

/-- `order.note || ""`. -/
def valCustomerNote (order : RawOrder) : String :=
  jsOrS order.note ""

/-- `order.billing_address?.first_name || ""`. -/
def valFirstNameBilling (order : RawOrder) : String :=
  jsOrS (order.billing_address.bind Address.first_name) ""

/-- `order.billing_address?.last_name || ""`. -/
def valLastNameBilling (order : RawOrder) : String :=
  jsOrS (order.billing_address.bind Address.last_name) ""

/-- `order.billing_address?.company || ""`. -/
def valCompanyBilling (order : RawOrder) : String :=
  jsOrS (order.billing_address.bind Address.company) ""

/-- The template literal joining `address1` and `address2` of the
billing address, each defaulted to `""`, then trimmed. -/
def valAddressBilling (order : RawOrder) : String :=
  (jsOrS (order.billing_address.bind Address.address1) "" ++ " " ++
    jsOrS (order.billing_address.bind Address.address2) "").trim

/-- `order.billing_address?.city || ""`. -/
def valCityBilling (order : RawOrder) : String :=
  jsOrS (order.billing_address.bind Address.city) ""

/-- `order.billing_address?.province_code || ""`. -/
def valStateCodeBilling (order : RawOrder) : String :=
  jsOrS (order.billing_address.bind Address.province_code) ""

/-- `(order.billing_address?.zip || "").replace(/\s/g, "")`. -/
def valPostcodeBilling (order : RawOrder) : String :=
  stripWs (jsOrS (order.billing_address.bind Address.zip) "")

/-- `order.billing_address?.country_code || ""`. -/
def valCountryCodeBilling (order : RawOrder) : String :=
  jsOrS (order.billing_address.bind Address.country_code) ""

/-- `order.shipping_address?.email || order.email || ""` - the
fallback is the order-level contact email. -/
def valEmailShipping (order : RawOrder) : String :=
  jsOr2 (order.shipping_address.bind Address.email) order.email ""

/-- `order.processed_at ? moment(..).format(..) : ""`: the ternary
tests truthiness of the timestamp. -/
def valPaidDate (fmt : String → String) (order : RawOrder) : String :=
  match jsTruthy order.processed_at with
  | some s => fmt s
  | none => ""

/-- `(order.shipping_address?.phone || order.phone || "").replace(/\s/g, "")` -
the fallback is the order-level phone, not the billing phone. -/
def valPhoneShipping (order : RawOrder) : String :=
  stripWs (jsOr2 (order.shipping_address.bind Address.phone) order.phone "")

/-- `(order.billing_address?.phone || order.phone || "").replace(/\s/g, "")`. -/
def valPhoneBilling (order : RawOrder) : String :=
  stripWs (jsOr2 (order.billing_address.bind Address.phone) order.phone "")

/-- `order.shipping_address?.first_name || order.billing_address?.first_name || ""`. -/
def valFirstNameShipping (order : RawOrder) : String :=
  jsOr2 (order.shipping_address.bind Address.first_name)
    (order.billing_address.bind Address.first_name) ""

/-- `order.shipping_address?.last_name || order.billing_address?.last_name || ""`. -/
def valLastNameShipping (order : RawOrder) : String :=
  jsOr2 (order.shipping_address.bind Address.last_name)
    (order.billing_address.bind Address.last_name) ""

/-- The template literal joining the two address components, each
falling back shipping-then-billing-then-empty, then trimmed. -/
def valAddressShipping (order : RawOrder) : String :=
  (jsOr2 (order.shipping_address.bind Address.address1)
      (order.billing_address.bind Address.address1) "" ++ " " ++
    jsOr2 (order.shipping_address.bind Address.address2)
      (order.billing_address.bind Address.address2) "").trim

/-- `order.shipping_address?.city || order.billing_address?.city || ""`. -/
def valCityShipping (order : RawOrder) : String :=
  jsOr2 (order.shipping_address.bind Address.city)
    (order.billing_address.bind Address.city) ""

/-- `order.shipping_address?.province_code || order.billing_address?.province_code || ""`. -/
def valStateCodeShipping (order : RawOrder) : String :=
  jsOr2 (order.shipping_address.bind Address.province_code)
    (order.billing_address.bind Address.province_code) ""

/-- `(order.shipping_address?.zip || order.billing_address?.zip || "").replace(/\s/g, "")`. -/
def valPostcodeShipping (order : RawOrder) : String :=
  stripWs (jsOr2 (order.shipping_address.bind Address.zip)
    (order.billing_address.bind Address.zip) "")

/-- `order.shipping_address?.country_code || order.billing_address?.country_code || ""`. -/
def valCountryCodeShipping (order : RawOrder) : String :=
  jsOr2 (order.shipping_address.bind Address.country_code)
    (order.billing_address.bind Address.country_code) ""

/-- `order.payment_gateway_names?.[0] || "Unknown"`. -/
def valPaymentMethodTitle (order : RawOrder) : String :=
  jsOrS (order.payment_gateway_names.bind List.head?) "Unknown"

/-- `order.total_discounts || "0"`. -/
def valCartDiscountAmount (order : RawOrder) : String :=
  jsOrS order.total_discounts "0"

/-- `order.subtotal_price || "0"`. -/
def valOrderSubtotalAmount (order : RawOrder) : String :=
  jsOrS order.subtotal_price "0"

/-- `order.shipping_lines?.[0]?.title || "Standard"`. -/
def valShippingMethodTitle (order : RawOrder) : String :=
  jsOrS ((order.shipping_lines.bind List.head?).bind ShippingLine.title) "Standard"

/-- `order.total_shipping_price_set?.shop_money?.amount || order.total_shipping_price || "0"`. -/
def valOrderShippingAmount (order : RawOrder) : String :=
  jsOr2 ((order.total_shipping_price_set.bind PriceSet.shop_money).bind
    ShopMoney.amount) order.total_shipping_price "0"

/-- `order.total_price || "0"`. -/
def valOrderTotalAmount (order : RawOrder) : String :=
  jsOrS order.total_price "0"

/-- `order.total_tax || "0"`. -/
def valOrderTotalTaxAmount (order : RawOrder) : String :=
  jsOrS order.total_tax "0"

/-- `lineItem.sku || ""`. -/
def valSku (lineItem : LineItem) : String :=
  jsOrS lineItem.sku ""

/-- `lineItem.name || lineItem.title`: when `name` is falsy the value
is `title` as is, which can itself be `undefined` (`none`). -/
def valItemName (lineItem : LineItem) : Option String :=
  match jsTruthy lineItem.name with
  | some s => some s
  | none => lineItem.title

/-- `lineItem.quantity || 1`: only a falsy quantity (absent or `0`)
falls back to `1`; a negative quantity is truthy and passes through. -/
def valQuantity (lineItem : LineItem) : Int :=
  match lineItem.quantity with
  | some q => if q = 0 then 1 else q
  | none => 1

/-- `lineItem.price || "0"`. -/
def valItemCost (lineItem : LineItem) : String :=
  jsOrS lineItem.price "0"

/-- `lineItem.total_discount || "0"`. -/
def valDiscountAmount (lineItem : LineItem) : String :=
  jsOrS lineItem.total_discount "0"

/-- `(order.billing_address?.city || "").replace(/\s/g, "")`. -/
def valCityCode (order : RawOrder) : String :=
  stripWs (jsOrS (order.billing_address.bind Address.city) "")

/-- The object literal returned by `transformOrderToWooFormat`, given
the two already-computed throwing subexpressions (the order number and
the coupon code); every other member is built by its `val*` function. -/
def mkRow (fmt : String → String) (now : String)
    (order : RawOrder) (lineItem : LineItem)
    (orderNumber coupon : String) : FlatRow :=
  {
      orderNumber := orderNumber
      orderStatus := valOrderStatus order
      orderDate := valOrderDate fmt now order
      customerNote := valCustomerNote order
      firstNameBilling := valFirstNameBilling order
      lastNameBilling := valLastNameBilling order
      companyBilling := valCompanyBilling order
      addressBilling := valAddressBilling order
      cityBilling := valCityBilling order
      stateCodeBilling := valStateCodeBilling order
      postcodeBilling := valPostcodeBilling order
      countryCodeBilling := valCountryCodeBilling order
      emailShipping := valEmailShipping order
      paidDate := valPaidDate fmt order
      phoneShipping := valPhoneShipping order
      phoneBilling := valPhoneBilling order
      firstNameShipping := valFirstNameShipping order
      lastNameShipping := valLastNameShipping order
      addressShipping := valAddressShipping order
      cityShipping := valCityShipping order
      stateCodeShipping := valStateCodeShipping order
      postcodeShipping := valPostcodeShipping order
      countryCodeShipping := valCountryCodeShipping order
      paymentMethodTitle := valPaymentMethodTitle order
      cartDiscountAmount := valCartDiscountAmount order
      orderSubtotalAmount := valOrderSubtotalAmount order
      shippingMethodTitle := valShippingMethodTitle order
      orderShippingAmount := valOrderShippingAmount order
      orderRefundAmount := "0"
      orderTotalAmount := valOrderTotalAmount order
      orderTotalTaxAmount := valOrderTotalTaxAmount order
      sku := valSku lineItem
      itemId := lineItem.id
      itemName := valItemName lineItem
      quantity := valQuantity lineItem
      itemCost := valItemCost lineItem
      couponCode := coupon
      discountAmount := valDiscountAmount lineItem
      discountAmountTax := "0"
      cityCode := valCityCode order
      carrierCode := "" }

/-- Shallow embedding of `transformOrderToWooFormat` (src/server.js,
lines 153-202).  The `fmt`/`now` parameters abstract the `moment`
rendering chain.  The two subcomputations that can throw are sequenced
with the order number first, as in the source object literal; on
success the returned object is `mkRow`. -/
def transformOrderToWooFormat (fmt : String → String) (now : String)
    (order : RawOrder) (lineItem : LineItem) : Except String FlatRow :=
  match orderNumberValue order, couponCodeValue order with
  | Except.error m, _ => Except.error m
  | Except.ok _, Except.error m => Except.error m
  | Except.ok orderNumber, Except.ok coupon =>
    Except.ok (mkRow fmt now order lineItem orderNumber coupon)

/-- Erase the six item-level members (`SKU`, `Item #`, `Item Name`,
`Quantity (- Refund)`, `Item Cost`, `Discount Amount`); two rows agree
on every order-level member exactly when their images under
`orderPart` are equal. -/
def orderPart (r : FlatRow) : FlatRow :=
  { r with sku := "", itemId := none, itemName := none,
           quantity := 0, itemCost := "", discountAmount := "" }

/-! The `/export-orders` row expansion (src/server.js lines 270-281):
for each order, orders without line items are skipped, otherwise one
row per line item is appended to `csvData` in order. -/

/-- The inner `for (const lineItem of order.line_items)` loop: append
one transformed row per line item to the accumulator; a thrown
`TypeError` propagates. -/
def exportItems (fmt : String → String) (now : String) (order : RawOrder) :
    List LineItem → List FlatRow → Except String (List FlatRow)
  | [], acc => Except.ok acc
  | li :: rest, acc =>
    match transformOrderToWooFormat fmt now order li with
    | Except.error m => Except.error m
    | Except.ok r => exportItems fmt now order rest (acc ++ [r])

/-- The outer `for (const order of orders)` loop with the
`!order.line_items || order.line_items.length === 0` skip. -/
def exportOrdersLoop (fmt : String → String) (now : String) :
    List RawOrder → List FlatRow → Except String (List FlatRow)
  | [], acc => Except.ok acc
  | o :: rest, acc =>
    match o.line_items with
    | none => exportOrdersLoop fmt now rest acc
    | some items =>
      if items.length = 0 then
        exportOrdersLoop fmt now rest acc
      else
        match exportItems fmt now o items acc with
        | Except.error m => Except.error m
        | Except.ok acc' => exportOrdersLoop fmt now rest acc'

/-- The whole expansion: the `csvData` list built by the route from
the fetched orders. -/
def exportRows (fmt : String → String) (now : String)
    (orders : List RawOrder) : Except String (List FlatRow) :=
  exportOrdersLoop fmt now orders []

/-! The paginated fetcher `fetchAllOrders` (src/server.js lines
59-150). -/

/-- `MAX_PAGES = 100`, the safety limit of the pagination loop. -/
def MAX_PAGES : Nat := 100

/-- The first-page endpoint: `orders.json?${queryParams}`. -/
def queryEndpoint (queryParams : String) : String :=
  "orders.json?" ++ queryParams

/-- The cursor endpoint used for every later page:
`orders.json?limit=250&page_info=${pageInfo}`. -/
def cursorEndpoint (pageInfo : String) : String :=
  "orders.json?limit=250&page_info=" ++ pageInfo

/-- Endpoint selection of the loop body (lines 73-78): the cursor
endpoint when a `page_info` is held, the full query otherwise. -/
def endpointFor (queryParams : String) : Option String → String
  | some pi => cursorEndpoint pi
  | none => queryEndpoint queryParams

/-- A successful page response, reduced to the members the loop reads:
`response.data.orders` (possibly absent) and the next-page cursor.
`nextCursor` models lines 106-117: it is `some c` when the `link`
header contains `rel="next"` and the `page_info` regex captures `c`;
it is `none` when the header is absent, lacks `rel="next"`, or the
regex fails - all three cases end pagination identically. -/
structure PageResp where
  orders : Option (List RawOrder) := none
  nextCursor : Option String := none

/-- An axios failure, reduced to the members the catch block reads. -/
structure AxiosError where
  code : Option String := none
  responseStatus : Option Nat := none
  responseErrors : Option String := none
  message : Option String := none

/-- What the upstream does with one page request. -/
inductive PageResult where
  | ok (resp : PageResp)
  | err (e : AxiosError)

/-- The catch block (lines 136-149): `ECONNABORTED` first, then HTTP
429, then HTTP 401, then the generic
`error.response?.data?.errors || error.message || "Failed to fetch orders from Shopify"`. -/
def errorMessage (e : AxiosError) : String :=
  if e.code = some "ECONNABORTED" then
    "Request timeout - try selecting a smaller date range"
  else if e.responseStatus = some 429 then
    "Shopify API rate limit exceeded - please wait a moment and try again"
  else if e.responseStatus = some 401 then
    "Authentication failed - check your Shopify credentials"
  else
    match jsTruthy e.responseErrors with
    | some b => b
    | none => jsOrS e.message "Failed to fetch orders from Shopify"

/-- Result of one `fetchAllOrders` call: the endpoints requested in
order, the returned order list or the thrown message, and the final
`pageCount`. -/
structure FetchResult where
  requests : List String
  result : Except String (List RawOrder)
  pages : Nat

/-- The `while (hasNextPage && pageCount < MAX_PAGES)` loop.  State:
the held cursor (`pageInfo`), the accumulated orders, `pageCount`, and
`remaining := MAX_PAGES - pageCount`, so that the guard
`pageCount < MAX_PAGES` is exactly `remaining > 0`; `upstream k` is
the outcome of the `k`-th request (0-based, `k = pageCount` before the
increment).  One iteration: build the endpoint, request, on a throw
abort with the catch-block message; otherwise concatenate the page,
then continue exactly when a next cursor was captured and the page was
not short (fewer than 250 records ends pagination, lines 119-122). -/
def fetchGo (upstream : Nat → PageResult) (queryParams : String) :
    Option String → List RawOrder → Nat → Nat → FetchResult
  | _, allOrders, pageCount, 0 =>
    ⟨[], Except.ok allOrders, pageCount⟩
  | pageInfo, allOrders, pageCount, remaining + 1 =>
    let endpoint := endpointFor queryParams pageInfo
    match upstream pageCount with
    | PageResult.err e =>
      ⟨[endpoint], Except.error (errorMessage e), pageCount + 1⟩
    | PageResult.ok resp =>
      let orders := resp.orders.getD []
      match resp.nextCursor with
      | some c =>
        if orders.length < 250 then
          ⟨[endpoint], Except.ok (allOrders ++ orders), pageCount + 1⟩
        else
          let rest := fetchGo upstream queryParams (some c)
            (allOrders ++ orders) (pageCount + 1) remaining
          ⟨endpoint :: rest.requests, rest.result, rest.pages⟩
      | none => ⟨[endpoint], Except.ok (allOrders ++ orders), pageCount + 1⟩

/-- `fetchAllOrders(queryParams)` against a given upstream: the loop
from the initial state (`pageInfo = null`, no orders, `pageCount = 0`,
`remaining = MAX_PAGES`). -/
def fetchAllOrders (upstream : Nat → PageResult) (queryParams : String) :
    FetchResult :=
  fetchGo upstream queryParams none [] 0 MAX_PAGES

/-- The post-loop warning (lines 130-132) fires exactly when the loop
finished without throwing and `pageCount >= MAX_PAGES`. -/
def warnsPageCeiling (fr : FetchResult) : Bool :=
  (match fr.result with
    | Except.ok _ => true
    | Except.error _ => false) && decide (MAX_PAGES ≤ fr.pages)

/-- The records of one page outcome, as concatenated by the loop. -/
def pageOrders : PageResult → List RawOrder
  | PageResult.ok r => r.orders.getD []
  | PageResult.err _ => []

/-! Spec-side helper functions and concrete sample data used by the
claim theorems, their witnesses and counterexamples. -/

/-- Whether an `Except` computation returned normally. -/
def exceptOk {ε α : Type} : Except ε α → Bool
  | Except.ok _ => true
  | Except.error _ => false

/-- The next-page cursor carried by a page outcome, if any. -/
def nextCursorOf : PageResult → Option String
  | PageResult.ok resp => resp.nextCursor
  | PageResult.err _ => none

/-- The concatenation of the records of `n` consecutive page outcomes
starting at request index `start`. -/
def pagesConcat (upstream : Nat → PageResult) (start n : Nat) : List RawOrder :=
  ((List.range n).map (fun j => pageOrders (upstream (start + j)))).flatten

/-- A page outcome that keeps the loop going: a normal response with a
next cursor and at least the full page size of 250 records. -/
def isFullPage (pr : PageResult) : Prop :=
  ∃ resp, pr = PageResult.ok resp ∧ resp.nextCursor ≠ none ∧
    250 ≤ (resp.orders.getD []).length

/-- The precedence the claim describes for a shipping-prefixed field,
following its words: the primary (shipping) value when present and
non-empty, otherwise the fallback value when present and non-empty,
otherwise the empty string. -/
def specFallback (primary fallback : Option String) : String :=
  match jsTruthy primary with
  | some s => s
  | none =>
    match jsTruthy fallback with
    | some b => b
    | none => ""

/-- A populated billing address whose phone `"111"` differs from the
order-level phone. -/
def bAddr : Address :=
  { first_name := some "Alice", last_name := some "Doe",
    address1 := some "1 Main St", city := some "New Cairo",
    province_code := some "C", zip := some "11 22",
    country_code := some "EG", phone := some "111" }

/-- A well-formed order without a shipping address: billing phone
`"111"`, order-level phone `"2 22"`. -/
def oBase : RawOrder :=
  { id := some 1, name := some "#1001", email := some "a@b.c",
    phone := some "2 22", created_at := some "2024-01-02T03:04:05Z",
    billing_address := some bAddr }

/-- A well-formed line item. -/
def liBase : LineItem :=
  { id := some 5, sku := some "SKU1", name := some "Widget",
    quantity := some 2, price := some "10.00", total_discount := some "0.50" }

/-- A line item with a negative quantity. -/
def liNeg : LineItem :=
  { id := some 7, quantity := some (-2) }

/-- An order whose `created_at` is absent. -/
def oNoDate : RawOrder :=
  { id := some 2, name := some "#1002", billing_address := some bAddr }

/-- The row `transformOrderToWooFormat` returns for `oBase`/`liBase`
with the identity rendering and current instant `"NOW"`. -/
def rowBase : FlatRow :=
  mkRow (fun s => s) "NOW" oBase liBase "1001" ""

/-- A partially populated shipping address: some members present,
others absent. -/
def sAddr : Address :=
  { first_name := some "Bob", address1 := some "5 Side St",
    city := some "Giza", zip := some "9 9", phone := some "3 33",
    email := some "s@e.g" }

/-- `oBase` with the shipping address `sAddr` attached. -/
def oShip : RawOrder :=
  { oBase with shipping_address := some sAddr }

/-- The row returned for `oShip`/`liBase`. -/
def rowShip : FlatRow :=
  mkRow (fun s => s) "NOW" oShip liBase "1001" ""

/-- The row returned for `oBase`/`liNeg`. -/
def rowNeg : FlatRow :=
  mkRow (fun s => s) "NOW" oBase liNeg "1001" ""

/-- The row returned for `oNoDate`/`liBase` at current instant `"T1"`. -/
def rowT1 : FlatRow :=
  mkRow (fun s => s) "T1" oNoDate liBase "1002" ""

/-- The row returned for `oNoDate`/`liBase` at current instant `"T2"`. -/
def rowT2 : FlatRow :=
  mkRow (fun s => s) "T2" oNoDate liBase "1002" ""

/-- An upstream whose first page is full with a next cursor and whose
second request fails with a connection-abort (timeout) error. -/
def upTimeout : Nat → PageResult := fun i =>
  if i = 0 then
    PageResult.ok { orders := some (List.replicate 250 {}), nextCursor := some "CUR1" }
  else
    PageResult.err { code := some "ECONNABORTED", message := some "timeout of 60000ms exceeded" }

/-- An upstream that always answers with a full page and a next cursor. -/
def upFull : Nat → PageResult := fun _ =>
  PageResult.ok { orders := some (List.replicate 250 {}), nextCursor := some "CURX" }

/-- An upstream whose first page is short (one record) but still
carries a next cursor. -/
def upShort : Nat → PageResult := fun _ =>
  PageResult.ok { orders := some [{}], nextCursor := some "CUR2" }

/-- One flat record per `(order, line item)` pair, in order: the
declarative description of the export expansion. -/
def rowsOfPairs (fmt : String → String) (now : String) :
    List (RawOrder × LineItem) → Except String (List FlatRow)
  | [] => Except.ok []
  | (o, li) :: ps => do
    let r ← transformOrderToWooFormat fmt now o li
    let rs ← rowsOfPairs fmt now ps
    Except.ok (r :: rs)

/-- All `(order, line item)` pairs of an order list, in order; an
order with an absent or empty `line_items` contributes none. -/
def orderPairs (orders : List RawOrder) : List (RawOrder × LineItem) :=
  orders.flatMap (fun o => (o.line_items.getD []).map (fun li => (o, li)))

/-- A second line item of the same order. -/
def liSku2 : LineItem :=
  { id := some 6, sku := some "SKU2", name := some "Gadget",
    quantity := some 1, price := some "5.00" }

/-- The row returned for `oBase`/`liSku2`. -/
def rowSku2 : FlatRow :=
  mkRow (fun s => s) "NOW" oBase liSku2 "1001" ""

/-- `oBase` with two line items. -/
def oTwo : RawOrder :=
  { oBase with line_items := some [liBase, liSku2] }

/-- `oBase` with an empty line-item list. -/
def oZero : RawOrder :=
  { oBase with line_items := some [] }

/-! Shared lemmas about the normalizer. -/

/-- Unfolding `jsOr2` when the first operand is absent. -/
theorem jsOr2_none (b : Option String) (d : String) : jsOr2 none b d = jsOrS b d := rfl

/-- A normal return of `transformOrderToWooFormat` means both throwing
subexpressions returned, and the row is their `mkRow`. -/
theorem transform_ok_elim {fmt : String → String} {now : String}
    {o : RawOrder} {li : LineItem} {r : FlatRow}
    (hok : transformOrderToWooFormat fmt now o li = Except.ok r) :
    ∃ onum ccode, orderNumberValue o = Except.ok onum ∧
      couponCodeValue o = Except.ok ccode ∧ r = mkRow fmt now o li onum ccode := by
  unfold transformOrderToWooFormat at hok
  cases honum : orderNumberValue o with
  | error m => rw [honum] at hok; simp at hok
  | ok onum =>
    cases hccode : couponCodeValue o with
    | error m => rw [honum, hccode] at hok; simp at hok
    | ok ccode =>
      rw [honum, hccode] at hok
      simp only [Except.ok.injEq] at hok
      exact ⟨onum, ccode, rfl, rfl, hok.symm⟩

/-- The spec-side precedence function coincides with the code's
`a || b || ""` chain. -/
theorem specFallback_eq_jsOr2 (a b : Option String) :
    specFallback a b = jsOr2 a b "" := by
  unfold specFallback jsOr2 jsOrS
  cases jsTruthy a with
  | some s => rfl
  | none =>
    cases jsTruthy b with
    | some t => rfl
    | none => rfl

/-- C1 (amended): on every returned row the shipping-prefixed columns
follow the precedence `specFallback` - the shipping-address member
when present and non-empty, otherwise the fallback, otherwise the
empty string.  For first name, last name, city, state code and
country code the fallback is the corresponding billing member; the
postcode follows the same precedence and is then whitespace-stripped;
the address column applies the precedence per component (`address1`,
`address2`) before joining and trimming; email and phone fall back to
the order-level email and phone - not to billing members - with the
phone whitespace-stripped.  Consequently, for an order with no
shipping address, the seven address-derived shipping columns equal
their billing counterparts. -/
theorem C1_shipping_field_precedence
    (fmt : String → String) (now : String) (o : RawOrder) (li : LineItem)
    (r : FlatRow)
    (hok : transformOrderToWooFormat fmt now o li = Except.ok r) :
    (∀ (a b : Option String) (s : String), jsTruthy a = some s →
      specFallback a b = s) ∧
    (∀ (a b : Option String) (s : String), jsTruthy a = none →
      jsTruthy b = some s → specFallback a b = s) ∧
    (∀ a b : Option String, jsTruthy a = none → jsTruthy b = none →
      specFallback a b = "") ∧
    r.firstNameShipping = specFallback (o.shipping_address.bind Address.first_name)
      (o.billing_address.bind Address.first_name) ∧
    r.lastNameShipping = specFallback (o.shipping_address.bind Address.last_name)
      (o.billing_address.bind Address.last_name) ∧
    r.cityShipping = specFallback (o.shipping_address.bind Address.city)
      (o.billing_address.bind Address.city) ∧
    r.stateCodeShipping = specFallback (o.shipping_address.bind Address.province_code)
      (o.billing_address.bind Address.province_code) ∧
    r.countryCodeShipping = specFallback (o.shipping_address.bind Address.country_code)
      (o.billing_address.bind Address.country_code) ∧
    r.postcodeShipping = stripWs (specFallback (o.shipping_address.bind Address.zip)
      (o.billing_address.bind Address.zip)) ∧
    r.addressShipping =
      (specFallback (o.shipping_address.bind Address.address1)
          (o.billing_address.bind Address.address1) ++ " " ++
        specFallback (o.shipping_address.bind Address.address2)
          (o.billing_address.bind Address.address2)).trim ∧
    r.emailShipping = specFallback (o.shipping_address.bind Address.email) o.email ∧
    r.phoneShipping =
      stripWs (specFallback (o.shipping_address.bind Address.phone) o.phone) ∧
    (o.shipping_address = none →
      r.firstNameShipping = r.firstNameBilling ∧
      r.lastNameShipping = r.lastNameBilling ∧
      r.addressShipping = r.addressBilling ∧
      r.cityShipping = r.cityBilling ∧
      r.stateCodeShipping = r.stateCodeBilling ∧
      r.postcodeShipping = r.postcodeBilling ∧
      r.countryCodeShipping = r.countryCodeBilling) := by
  obtain ⟨onum, ccode, -, -, hr⟩ := transform_ok_elim hok
  subst hr
  refine ⟨?_, ?_, ?_, ?_, ?_, ?_, ?_, ?_, ?_, ?_, ?_, ?_, ?_⟩
  · intro a b s h
    simp [specFallback, h]
  · intro a b s ha hb
    simp [specFallback, ha, hb]
  · intro a b ha hb
    simp [specFallback, ha, hb]
  · simp [mkRow, valFirstNameShipping, specFallback_eq_jsOr2]
  · simp [mkRow, valLastNameShipping, specFallback_eq_jsOr2]
  · simp [mkRow, valCityShipping, specFallback_eq_jsOr2]
  · simp [mkRow, valStateCodeShipping, specFallback_eq_jsOr2]
  · simp [mkRow, valCountryCodeShipping, specFallback_eq_jsOr2]
  · simp [mkRow, valPostcodeShipping, specFallback_eq_jsOr2]
  · simp [mkRow, valAddressShipping, specFallback_eq_jsOr2]
  · simp [mkRow, valEmailShipping, specFallback_eq_jsOr2]
  · simp [mkRow, valPhoneShipping, specFallback_eq_jsOr2]
  · intro hship
    refine ⟨?_, ?_, ?_, ?_, ?_, ?_, ?_⟩ <;>
      simp [mkRow, valFirstNameShipping, valFirstNameBilling,
        valLastNameShipping, valLastNameBilling, valAddressShipping,
        valAddressBilling, valCityShipping, valCityBilling,
        valStateCodeShipping, valStateCodeBilling, valPostcodeShipping,
        valPostcodeBilling, valCountryCodeShipping, valCountryCodeBilling,
        jsOr2, jsOrS, jsTruthy, hship]

/-- C1 counterexample: `oBase` has no shipping address and a populated
billing address whose phone is `"111"`, yet the shipping phone column
is the stripped order-level phone `"222"`, not the billing phone. -/
theorem C1_counterexample :
    oBase.shipping_address = none ∧
    oBase.billing_address.bind Address.phone = some "111" ∧
    transformOrderToWooFormat (fun s => s) "NOW" oBase liBase = Except.ok rowBase ∧
    rowBase.phoneShipping = "222" ∧
    rowBase.phoneBilling = "111" ∧
    (rowBase.phoneShipping == rowBase.phoneBilling) = false :=
  ⟨rfl, rfl, rfl, by decide, by decide, by decide⟩

/-- C1 witness: the amended theorem applied to `oShip` (a present,
partially populated shipping address, exercising the shipping tier and
the billing tier) and to `oBase` (no shipping address, exercising the
billing-counterpart consequence). -/
theorem C1_witness :
    rowShip.cityShipping = "Giza" ∧
    rowShip.lastNameShipping = "Doe" ∧
    specFallback (none : Option String) none = "" ∧
    rowBase.firstNameShipping = rowBase.firstNameBilling ∧
    rowBase.cityShipping = rowBase.cityBilling ∧
    rowBase.postcodeShipping = rowBase.postcodeBilling := by
  have hS := C1_shipping_field_precedence (fun s => s) "NOW" oShip liBase
    rowShip rfl
  have hB := C1_shipping_field_precedence (fun s => s) "NOW" oBase liBase
    rowBase rfl
  obtain ⟨t1, t2, t3, -, hln, hcity, -, -, -, -, -, -, -⟩ := hS
  obtain ⟨-, -, -, -, -, -, -, -, -, -, -, -, hnone⟩ := hB
  refine ⟨?_, ?_, t3 none none rfl rfl, (hnone rfl).1, (hnone rfl).2.2.2.1,
    (hnone rfl).2.2.2.2.2.1⟩
  · rw [hcity]
    exact t1 _ _ "Giza" (by decide)
  · rw [hln]
    exact t2 _ _ "Doe" (by decide) (by decide)

/-- Binding a normal `Except` value just applies the continuation. -/
theorem exceptBind_ok {ε α β : Type} (a : α) (f : α → Except ε β) :
    (Except.ok a >>= f : Except ε β) = f a := rfl

/-- Mapping `codeValue` over codes that are all present never throws. -/
theorem mapCodes_ok :
    ∀ dcs : List DiscountCode, (∀ dc ∈ dcs, dc.code ≠ none) →
      ∃ cs : List String, mapCodes dcs = Except.ok cs := by
  intro dcs h
  induction dcs with
  | nil => exact ⟨[], rfl⟩
  | cons dc rest ih =>
    obtain ⟨c, hc⟩ := Option.ne_none_iff_exists'.mp (h dc (by simp))
    obtain ⟨cs, hcs⟩ := ih (fun x hx => h x (by simp [hx]))
    refine ⟨stripWs c :: cs, ?_⟩
    simp [mapCodes, codeValue, hc, hcs, exceptBind_ok]

/-- C2 (amended): when the order has a truthy name or a present id and
every discount-code entry carries a `code`, the normalizer returns
normally; the returned row then has every member defined except that
`Item #` is undefined exactly when the line item has no id, and
`Item Name` is undefined when both its `name` and `title` are absent. -/
theorem C2_no_throw_when_keyed
    (fmt : String → String) (now : String) (o : RawOrder) (li : LineItem)
    (hid : jsTruthy o.name ≠ none ∨ o.id ≠ none)
    (hcodes : ∀ dc ∈ o.discount_codes.getD [], dc.code ≠ none) :
    exceptOk (transformOrderToWooFormat fmt now o li) = true ∧
    (∀ r, transformOrderToWooFormat fmt now o li = Except.ok r →
      (li.id ≠ none → r.itemId ≠ none) ∧
      ((jsTruthy li.name ≠ none ∨ li.title ≠ none) → r.itemName ≠ none)) := by
  have honum : ∃ onum, orderNumberValue o = Except.ok onum := by
    unfold orderNumberValue
    cases hn : jsTruthy o.name with
    | some s => exact ⟨removeFirstHash s, rfl⟩
    | none =>
      rcases hid with h | h
      · exact absurd hn h
      · obtain ⟨n, hn2⟩ := Option.ne_none_iff_exists'.mp h
        rw [hn2]
        exact ⟨removeFirstHash (toString n), rfl⟩
  have hccode : ∃ ccode, couponCodeValue o = Except.ok ccode := by
    unfold couponCodeValue
    cases hdc : o.discount_codes with
    | none => exact ⟨"", rfl⟩
    | some dcs =>
      rw [hdc] at hcodes
      simp only [Option.getD_some] at hcodes
      obtain ⟨cs, hcs⟩ := mapCodes_ok dcs hcodes
      exact ⟨String.intercalate "," cs, by simp [hcs, exceptBind_ok]⟩
  obtain ⟨onum, honum⟩ := honum
  obtain ⟨ccode, hccode⟩ := hccode
  constructor
  · unfold transformOrderToWooFormat
    rw [honum, hccode]
    rfl
  · intro r hok
    obtain ⟨onum2, ccode2, -, -, hr⟩ := transform_ok_elim hok
    subst hr
    constructor
    · intro h
      simpa [mkRow] using h
    · intro h
      rcases h with h | h
      · obtain ⟨s, hs⟩ := Option.ne_none_iff_exists'.mp h
        simp [mkRow, valItemName, hs]
      · cases hn : jsTruthy li.name with
        | some s => simp [mkRow, valItemName, hn]
        | none =>
          simp only [mkRow, valItemName, hn]
          exact h

/-- C2 counterexample: an order with neither `name` nor `id` makes
`(order.name || order.id).toString()` throw, so the normalizer does
not return a row. -/
theorem C2_counterexample :
    ({} : RawOrder).name = none ∧ ({} : RawOrder).id = none ∧
    transformOrderToWooFormat (fun s => s) "NOW" {} {} =
      Except.error "TypeError: Cannot read toString of undefined" :=
  ⟨rfl, rfl, rfl⟩

/-- C2 witness: the amended theorem applied to `oBase`/`liBase`. -/
theorem C2_witness :
    jsTruthy oBase.name = some "#1001" ∧
    oBase.discount_codes = none ∧
    exceptOk (transformOrderToWooFormat (fun s => s) "NOW" oBase liBase) = true ∧
    rowBase.itemId.isSome = true ∧
    rowBase.itemName.isSome = true := by
  have h := C2_no_throw_when_keyed (fun s => s) "NOW" oBase liBase
    (Or.inl (by decide)) (by simp [oBase])
  refine ⟨by decide, rfl, h.1, ?_, ?_⟩
  · exact Option.isSome_iff_ne_none.mpr ((h.2 rowBase rfl).1 (by decide))
  · exact Option.isSome_iff_ne_none.mpr ((h.2 rowBase rfl).2 (Or.inl (by decide)))

/-- C7 (amended): the quantity column is `1` when the line-item
quantity is absent or zero, and is the quantity itself whenever the
quantity is a nonzero number - including negative ones, which JS
truthiness passes through. -/
theorem C7_quantity_default
    (fmt : String → String) (now : String) (o : RawOrder) (li : LineItem)
    (r : FlatRow)
    (hok : transformOrderToWooFormat fmt now o li = Except.ok r) :
    (li.quantity = none → r.quantity = 1) ∧
    (li.quantity = some 0 → r.quantity = 1) ∧
    (∀ q : Int, li.quantity = some q → q ≠ 0 → r.quantity = q) := by
  obtain ⟨onum, ccode, -, -, hr⟩ := transform_ok_elim hok
  subst hr
  refine ⟨fun h => ?_, fun h => ?_, fun q hq hq0 => ?_⟩
  · simp [mkRow, valQuantity, h]
  · simp [mkRow, valQuantity, h]
  · simp [mkRow, valQuantity, hq, hq0]

/-- C7 counterexample: a line item with the non-positive quantity `-2`
produces the quantity column `-2`, not the default `1`. -/
theorem C7_counterexample :
    liNeg.quantity = some (-2) ∧ (-2 : Int) ≤ 0 ∧
    transformOrderToWooFormat (fun s => s) "NOW" oBase liNeg = Except.ok rowNeg ∧
    rowNeg.quantity = -2 ∧
    (rowNeg.quantity == 1) = false :=
  ⟨rfl, by decide, rfl, by decide, by decide⟩

/-- C7 witness: the amended theorem applied to `liBase`, whose
quantity `2` passes through. -/
theorem C7_witness :
    liBase.quantity = some 2 ∧ rowBase.quantity = 2 :=
  ⟨rfl, (C7_quantity_default (fun s => s) "NOW" oBase liBase rowBase rfl).2.2
    2 rfl (by decide)⟩

/-- C9 (amended): for orders whose `created_at` is present the
normalizer is a deterministic function of `(order, lineItem)` alone -
the rendered current instant does not influence the row. -/
theorem C9_deterministic_when_dated
    (fmt : String → String) (now1 now2 : String)
    (o : RawOrder) (li : LineItem) (h : o.created_at ≠ none) :
    transformOrderToWooFormat fmt now1 o li =
      transformOrderToWooFormat fmt now2 o li := by
  obtain ⟨s, hs⟩ := Option.ne_none_iff_exists'.mp h
  unfold transformOrderToWooFormat
  cases orderNumberValue o with
  | error m => rfl
  | ok onum =>
    cases couponCodeValue o with
    | error m => rfl
    | ok ccode =>
      simp [mkRow, valOrderDate, momentFmt, hs]

/-- C9 counterexample: for an order with no `created_at` the order
date column is the rendered current instant (`moment(undefined)` is
now), so two invocations at different times return different rows. -/
theorem C9_counterexample :
    oNoDate.created_at = none ∧
    transformOrderToWooFormat (fun s => s) "T1" oNoDate liBase = Except.ok rowT1 ∧
    transformOrderToWooFormat (fun s => s) "T2" oNoDate liBase = Except.ok rowT2 ∧
    rowT1.orderDate = "T1" ∧ rowT2.orderDate = "T2" ∧
    (rowT1.orderDate == rowT2.orderDate) = false :=
  ⟨rfl, rfl, rfl, rfl, rfl, by decide⟩

/-- C9 witness: the amended theorem applied to the dated `oBase`. -/
theorem C9_witness :
    transformOrderToWooFormat (fun s => s) "NOW" oBase liBase =
      transformOrderToWooFormat (fun s => s) "LATER" oBase liBase :=
  C9_deterministic_when_dated (fun s => s) "NOW" "LATER" oBase liBase (by decide)

/-- C10: every returned row carries the constants `"0"` for the order
refund amount, `"0"` for the discount amount tax, and `""` for the
carrier code, regardless of the source data. -/
theorem C10_constant_fields
    (fmt : String → String) (now : String) (o : RawOrder) (li : LineItem)
    (r : FlatRow)
    (hok : transformOrderToWooFormat fmt now o li = Except.ok r) :
    r.orderRefundAmount = "0" ∧ r.discountAmountTax = "0" ∧ r.carrierCode = "" := by
  obtain ⟨onum, ccode, -, -, hr⟩ := transform_ok_elim hok
  subst hr
  exact ⟨rfl, rfl, rfl⟩

/-- C10 witness: the theorem applied to `oBase`/`liBase`. -/
theorem C10_witness :
    rowBase.orderRefundAmount = "0" ∧ rowBase.discountAmountTax = "0" ∧
    rowBase.carrierCode = "" :=
  C10_constant_fields (fun s => s) "NOW" oBase liBase rowBase rfl

/-! Lemmas relating the export loops to the declarative expansion. -/

/-- Binding a thrown `Except` value propagates the message. -/
theorem exceptBind_error {ε α β : Type} (m : ε) (f : α → Except ε β) :
    (Except.error m >>= f : Except ε β) = Except.error m := rfl

/-- Mapping over a normal `Except` value. -/
theorem exceptMap_ok {ε α β : Type} (f : α → β) (a : α) :
    Except.map f (Except.ok a : Except ε α) = Except.ok (f a) := rfl

/-- Mapping over a thrown `Except` value. -/
theorem exceptMap_error {ε α β : Type} (f : α → β) (m : ε) :
    Except.map f (Except.error m : Except ε α) = Except.error m := rfl

/-- The inner item loop is the declarative expansion of this order's
pairs, appended to the accumulator. -/
theorem exportItems_eq (fmt : String → String) (now : String) (o : RawOrder) :
    ∀ (items : List LineItem) (acc : List FlatRow),
      exportItems fmt now o items acc =
        Except.map (fun rs => acc ++ rs)
          (rowsOfPairs fmt now (items.map (fun li => (o, li)))) := by
  intro items
  induction items with
  | nil => intro acc; simp [exportItems, rowsOfPairs, exceptMap_ok]
  | cons li rest ih =>
    intro acc
    simp only [exportItems, List.map_cons, rowsOfPairs]
    cases ht : transformOrderToWooFormat fmt now o li with
    | error m => simp [exceptBind_error, exceptMap_error]
    | ok r =>
      cases hrs : rowsOfPairs fmt now (rest.map (fun li => (o, li))) with
      | error m =>
        have h2 : exportItems fmt now o rest (acc ++ [r]) = Except.error m := by
          rw [ih, hrs]; rfl
        simp [h2, exceptBind_ok, exceptBind_error, exceptMap_error]
      | ok rs =>
        have h2 : exportItems fmt now o rest (acc ++ [r]) =
            Except.ok ((acc ++ [r]) ++ rs) := by
          rw [ih, hrs]; rfl
        simp [h2, exceptBind_ok, exceptMap_ok]

/-- The declarative expansion distributes over list append. -/
theorem rowsOfPairs_append (fmt : String → String) (now : String) :
    ∀ ps qs, rowsOfPairs fmt now (ps ++ qs) =
      (rowsOfPairs fmt now ps) >>=
        (fun rs => Except.map (fun rs' => rs ++ rs') (rowsOfPairs fmt now qs)) := by
  intro ps qs
  induction ps with
  | nil =>
    simp only [List.nil_append, rowsOfPairs, exceptBind_ok]
    cases rowsOfPairs fmt now qs <;> simp [exceptMap_ok, exceptMap_error]
  | cons p rest ih =>
    obtain ⟨o, li⟩ := p
    show (do
        let r ← transformOrderToWooFormat fmt now o li
        let rs ← rowsOfPairs fmt now (rest ++ qs)
        Except.ok (r :: rs)) =
      ((do
          let r ← transformOrderToWooFormat fmt now o li
          let rs ← rowsOfPairs fmt now rest
          Except.ok (r :: rs)) >>=
        fun rs => Except.map (fun rs' => rs ++ rs') (rowsOfPairs fmt now qs))
    cases transformOrderToWooFormat fmt now o li with
    | error m => simp [exceptBind_error]
    | ok r =>
      simp only [exceptBind_ok]
      rw [ih]
      cases rowsOfPairs fmt now rest with
      | error m => simp [exceptBind_error]
      | ok rs =>
        simp only [exceptBind_ok]
        cases rowsOfPairs fmt now qs with
        | error m => simp [exceptMap_error, exceptBind_error]
        | ok rs' => simp [exceptMap_ok, exceptBind_ok]

/-- The outer order loop is the declarative expansion of all pairs,
appended to the accumulator. -/
theorem exportOrdersLoop_eq (fmt : String → String) (now : String) :
    ∀ (orders : List RawOrder) (acc : List FlatRow),
      exportOrdersLoop fmt now orders acc =
        Except.map (fun rs => acc ++ rs)
          (rowsOfPairs fmt now (orderPairs orders)) := by
  intro orders
  induction orders with
  | nil => intro acc; simp [exportOrdersLoop, orderPairs, rowsOfPairs, exceptMap_ok]
  | cons o rest ih =>
    intro acc
    simp only [exportOrdersLoop]
    cases hli : o.line_items with
    | none => rw [ih]; simp [orderPairs, hli]
    | some items =>
      have hsplit : orderPairs (o :: rest) =
          items.map (fun li => (o, li)) ++ orderPairs rest := by
        simp [orderPairs, hli]
      by_cases hlen : items.length = 0
      · have hnil : items = [] := List.length_eq_zero.mp hlen
        subst hnil
        rw [ih]
        simp [hsplit, rowsOfPairs, exceptBind_ok]
      · rw [hsplit, rowsOfPairs_append]
        cases hip : rowsOfPairs fmt now (items.map (fun li => (o, li))) with
        | error m =>
          have hq : exportItems fmt now o items acc = Except.error m := by
            rw [exportItems_eq, hip]; rfl
          simp [hlen, hq, exceptBind_error, exceptMap_error]
        | ok rs =>
          have hq : exportItems fmt now o items acc = Except.ok (acc ++ rs) := by
            rw [exportItems_eq, hip]; rfl
          simp only [hlen, hq, exceptBind_ok, ih, if_neg]
          cases rowsOfPairs fmt now (orderPairs rest) with
          | error m => simp [exceptMap_error]
          | ok rs' => simp [exceptMap_ok]

/-- C8: the export expansion emits exactly one row per
`(order, line item)` pair, in order (so an order with absent or empty
line items contributes no rows), and any two rows of the same order
agree on every order-level column, differing at most in the six
item-level columns erased by `orderPart`. -/
theorem C8_row_expansion (fmt : String → String) (now : String) :
    (∀ orders, exportRows fmt now orders =
      rowsOfPairs fmt now (orderPairs orders)) ∧
    (∀ o orders, (o.line_items = none ∨ o.line_items = some []) →
      exportRows fmt now (o :: orders) = exportRows fmt now orders) ∧
    (∀ o li li' r r',
      transformOrderToWooFormat fmt now o li = Except.ok r →
      transformOrderToWooFormat fmt now o li' = Except.ok r' →
      orderPart r = orderPart r') := by
  have hmain : ∀ orders, exportRows fmt now orders =
      rowsOfPairs fmt now (orderPairs orders) := by
    intro orders
    rw [exportRows, exportOrdersLoop_eq]
    cases rowsOfPairs fmt now (orderPairs orders) <;>
      simp [exceptMap_ok, exceptMap_error]
  refine ⟨hmain, ?_, ?_⟩
  · intro o orders hli
    rw [hmain, hmain]
    rcases hli with h | h <;> simp [orderPairs, h]
  · intro o li li' r r' h1 h2
    obtain ⟨onum1, cc1, hon1, hcc1, hr1⟩ := transform_ok_elim h1
    obtain ⟨onum2, cc2, hon2, hcc2, hr2⟩ := transform_ok_elim h2
    rw [hon1] at hon2
    rw [hcc1] at hcc2
    have honum : onum1 = onum2 := Except.ok.inj hon2
    have hccode : cc1 = cc2 := Except.ok.inj hcc2
    subst hr1
    subst hr2
    subst honum
    subst hccode
    simp [orderPart, mkRow]

/-- C8 witness: the theorem applied to a two-item order, an
empty-item order, and two rows of the same order. -/
theorem C8_witness :
    exportRows (fun s => s) "NOW" [oTwo] =
      rowsOfPairs (fun s => s) "NOW" (orderPairs [oTwo]) ∧
    exportRows (fun s => s) "NOW" [oZero] = exportRows (fun s => s) "NOW" [] ∧
    orderPart rowBase = orderPart rowSku2 :=
  ⟨(C8_row_expansion (fun s => s) "NOW").1 [oTwo],
   (C8_row_expansion (fun s => s) "NOW").2.1 oZero [] (Or.inr rfl),
   (C8_row_expansion (fun s => s) "NOW").2.2 oBase liBase liSku2 rowBase rowSku2
     rfl rfl⟩

/-! Lemmas characterising one iteration of the pagination loop. -/

/-- An exhausted guard (`pageCount >= MAX_PAGES`) issues no request. -/
theorem fetchGo_zero (up : Nat → PageResult) (qp : String)
    (pi : Option String) (acc : List RawOrder) (pc : Nat) :
    fetchGo up qp pi acc pc 0 = ⟨[], Except.ok acc, pc⟩ := rfl

/-- A request that throws aborts the loop with the catch-block message. -/
theorem fetchGo_err (up : Nat → PageResult) (qp : String)
    (pi : Option String) (acc : List RawOrder) (pc rem : Nat) (e : AxiosError)
    (hu : up pc = PageResult.err e) :
    fetchGo up qp pi acc pc (rem + 1) =
      ⟨[endpointFor qp pi], Except.error (errorMessage e), pc + 1⟩ := by
  simp [fetchGo, hu]

/-- A response without a next cursor ends pagination normally. -/
theorem fetchGo_ok_none (up : Nat → PageResult) (qp : String)
    (pi : Option String) (acc : List RawOrder) (pc rem : Nat) (resp : PageResp)
    (hu : up pc = PageResult.ok resp) (hnc : resp.nextCursor = none) :
    fetchGo up qp pi acc pc (rem + 1) =
      ⟨[endpointFor qp pi], Except.ok (acc ++ resp.orders.getD []), pc + 1⟩ := by
  simp [fetchGo, hu, hnc]

/-- A short page ends pagination normally even with a next cursor. -/
theorem fetchGo_ok_short (up : Nat → PageResult) (qp : String)
    (pi : Option String) (acc : List RawOrder) (pc rem : Nat)
    (resp : PageResp) (c : String)
    (hu : up pc = PageResult.ok resp) (hnc : resp.nextCursor = some c)
    (hshort : (resp.orders.getD []).length < 250) :
    fetchGo up qp pi acc pc (rem + 1) =
      ⟨[endpointFor qp pi], Except.ok (acc ++ resp.orders.getD []), pc + 1⟩ := by
  simp [fetchGo, hu, hnc, hshort]

/-- A full page with a next cursor continues with the cursor endpoint. -/
theorem fetchGo_ok_cont (up : Nat → PageResult) (qp : String)
    (pi : Option String) (acc : List RawOrder) (pc rem : Nat)
    (resp : PageResp) (c : String)
    (hu : up pc = PageResult.ok resp) (hnc : resp.nextCursor = some c)
    (hfull : ¬ (resp.orders.getD []).length < 250) :
    fetchGo up qp pi acc pc (rem + 1) =
      ⟨endpointFor qp pi ::
        (fetchGo up qp (some c) (acc ++ resp.orders.getD []) (pc + 1) rem).requests,
       (fetchGo up qp (some c) (acc ++ resp.orders.getD []) (pc + 1) rem).result,
       (fetchGo up qp (some c) (acc ++ resp.orders.getD []) (pc + 1) rem).pages⟩ := by
  simp [fetchGo, hu, hnc, hfull]

/-- Whenever the loop makes at least one request, the first endpoint
is determined by the held cursor. -/
theorem fetchGo_first (up : Nat → PageResult) (qp : String)
    (pi : Option String) (acc : List RawOrder) (pc rem : Nat) :
    (fetchGo up qp pi acc pc (rem + 1)).requests[0]? =
      some (endpointFor qp pi) := by
  cases hu : up pc with
  | err e => rw [fetchGo_err up qp pi acc pc rem e hu]; simp
  | ok resp =>
    cases hnc : resp.nextCursor with
    | none => rw [fetchGo_ok_none up qp pi acc pc rem resp hu hnc]; simp
    | some c =>
      by_cases hlen : (resp.orders.getD []).length < 250
      · rw [fetchGo_ok_short up qp pi acc pc rem resp c hu hnc hlen]; simp
      · rw [fetchGo_ok_cont up qp pi acc pc rem resp c hu hnc hlen]; simp

/-- A request that throws is the last request of the run, and the run
propagates the catch-block message. -/
theorem fetchGo_abort (up : Nat → PageResult) (qp : String) :
    ∀ (rem : Nat) (pi : Option String) (acc : List RawOrder) (pc k : Nat)
      (e : AxiosError),
      k < (fetchGo up qp pi acc pc rem).requests.length →
      up (pc + k) = PageResult.err e →
      (fetchGo up qp pi acc pc rem).requests.length = k + 1 ∧
      (fetchGo up qp pi acc pc rem).result = Except.error (errorMessage e) := by
  intro rem
  induction rem with
  | zero =>
    intro pi acc pc k e hk _
    rw [fetchGo_zero] at hk
    exact absurd hk (by simp)
  | succ rem ih =>
    intro pi acc pc k e hk hup
    cases hu : up pc with
    | err e0 =>
      rw [fetchGo_err up qp pi acc pc rem e0 hu] at hk ⊢
      have hk0 : k = 0 := by simpa using Nat.lt_one_iff.mp (by simpa using hk)
      subst hk0
      rw [Nat.add_zero] at hup
      rw [hu] at hup
      cases hup
      exact ⟨rfl, rfl⟩
    | ok resp =>
      cases hnc : resp.nextCursor with
      | none =>
        rw [fetchGo_ok_none up qp pi acc pc rem resp hu hnc] at hk
        have hk0 : k = 0 := by simpa using Nat.lt_one_iff.mp (by simpa using hk)
        subst hk0
        rw [Nat.add_zero, hu] at hup
        cases hup
      | some c =>
        by_cases hlen : (resp.orders.getD []).length < 250
        · rw [fetchGo_ok_short up qp pi acc pc rem resp c hu hnc hlen] at hk
          have hk0 : k = 0 := by simpa using Nat.lt_one_iff.mp (by simpa using hk)
          subst hk0
          rw [Nat.add_zero, hu] at hup
          cases hup
        · rw [fetchGo_ok_cont up qp pi acc pc rem resp c hu hnc hlen] at hk ⊢
          cases k with
          | zero =>
            rw [Nat.add_zero, hu] at hup
            cases hup
          | succ j =>
            have hj : j <
                (fetchGo up qp (some c) (acc ++ resp.orders.getD [])
                  (pc + 1) rem).requests.length := by
              simpa using Nat.lt_of_succ_lt_succ (by simpa using hk)
            have harith : pc + (j + 1) = (pc + 1) + j := by omega
            rw [harith] at hup
            have h := ih (some c) (acc ++ resp.orders.getD []) (pc + 1) j e hj hup
            simp [h.1, h.2]

/-- A short page is the last request of the run. -/
theorem fetchGo_short_stop (up : Nat → PageResult) (qp : String) :
    ∀ (rem : Nat) (pi : Option String) (acc : List RawOrder) (pc k : Nat)
      (resp : PageResp),
      k < (fetchGo up qp pi acc pc rem).requests.length →
      up (pc + k) = PageResult.ok resp →
      (resp.orders.getD []).length < 250 →
      (fetchGo up qp pi acc pc rem).requests.length = k + 1 := by
  intro rem
  induction rem with
  | zero =>
    intro pi acc pc k resp hk _ _
    rw [fetchGo_zero] at hk
    exact absurd hk (by simp)
  | succ rem ih =>
    intro pi acc pc k resp hk hup hshort
    cases hu : up pc with
    | err e0 =>
      rw [fetchGo_err up qp pi acc pc rem e0 hu] at hk ⊢
      have hk0 : k = 0 := by simpa using Nat.lt_one_iff.mp (by simpa using hk)
      subst hk0
      rw [Nat.add_zero, hu] at hup
      cases hup
    | ok resp0 =>
      cases hnc : resp0.nextCursor with
      | none =>
        rw [fetchGo_ok_none up qp pi acc pc rem resp0 hu hnc] at hk ⊢
        have hk0 : k = 0 := by simpa using Nat.lt_one_iff.mp (by simpa using hk)
        subst hk0
        rfl
      | some c =>
        by_cases hlen : (resp0.orders.getD []).length < 250
        · rw [fetchGo_ok_short up qp pi acc pc rem resp0 c hu hnc hlen] at hk ⊢
          have hk0 : k = 0 := by simpa using Nat.lt_one_iff.mp (by simpa using hk)
          subst hk0
          rfl
        · rw [fetchGo_ok_cont up qp pi acc pc rem resp0 c hu hnc hlen] at hk ⊢
          cases k with
          | zero =>
            rw [Nat.add_zero, hu] at hup
            cases hup
            exact absurd hshort hlen
          | succ j =>
            have hj : j <
                (fetchGo up qp (some c) (acc ++ resp0.orders.getD [])
                  (pc + 1) rem).requests.length := by
              simpa using Nat.lt_of_succ_lt_succ (by simpa using hk)
            have harith : pc + (j + 1) = (pc + 1) + j := by omega
            rw [harith] at hup
            have h := ih (some c) (acc ++ resp0.orders.getD []) (pc + 1) j resp
              hj hup hshort
            simp [h]

/-- Every request after the first is the cursor endpoint built from
the cursor of the previous response. -/
theorem fetchGo_chain (up : Nat → PageResult) (qp : String) :
    ∀ (rem : Nat) (pi : Option String) (acc : List RawOrder) (pc k : Nat),
      k + 1 < (fetchGo up qp pi acc pc rem).requests.length →
      (fetchGo up qp pi acc pc rem).requests[k + 1]? =
        Option.map cursorEndpoint (nextCursorOf (up (pc + k))) := by
  intro rem
  induction rem with
  | zero =>
    intro pi acc pc k hk
    rw [fetchGo_zero] at hk
    exact absurd hk (by simp)
  | succ rem ih =>
    intro pi acc pc k hk
    cases hu : up pc with
    | err e0 =>
      rw [fetchGo_err up qp pi acc pc rem e0 hu] at hk
      exact absurd hk (by simp)
    | ok resp =>
      cases hnc : resp.nextCursor with
      | none =>
        rw [fetchGo_ok_none up qp pi acc pc rem resp hu hnc] at hk
        exact absurd hk (by simp)
      | some c =>
        by_cases hlen : (resp.orders.getD []).length < 250
        · rw [fetchGo_ok_short up qp pi acc pc rem resp c hu hnc hlen] at hk
          exact absurd hk (by simp)
        · rw [fetchGo_ok_cont up qp pi acc pc rem resp c hu hnc hlen] at hk ⊢
          cases k with
          | zero =>
            have hpos : 0 <
                (fetchGo up qp (some c) (acc ++ resp.orders.getD [])
                  (pc + 1) rem).requests.length := by
              simp only [List.length_cons] at hk
              omega
            cases rem with
            | zero =>
              rw [fetchGo_zero] at hpos
              exact absurd hpos (by simp)
            | succ rem2 =>
              have hfirst := fetchGo_first up qp (some c)
                (acc ++ resp.orders.getD []) (pc + 1) rem2
              simp only [Nat.add_zero, hu, nextCursorOf, hnc, Option.map,
                List.getElem?_cons_succ, hfirst, endpointFor]
          | succ j =>
            have hj : j + 1 <
                (fetchGo up qp (some c) (acc ++ resp.orders.getD [])
                  (pc + 1) rem).requests.length := by
              simp only [List.length_cons] at hk
              omega
            have h := ih (some c) (acc ++ resp.orders.getD []) (pc + 1) j hj
            have harith : pc + 1 + j = pc + (j + 1) := by omega
            rw [harith] at h
            simp only [List.getElem?_cons_succ]
            exact h

/-- The loop never issues more requests than the remaining allowance. -/
theorem fetchGo_len_le (up : Nat → PageResult) (qp : String) :
    ∀ (rem : Nat) (pi : Option String) (acc : List RawOrder) (pc : Nat),
      (fetchGo up qp pi acc pc rem).requests.length ≤ rem := by
  intro rem
  induction rem with
  | zero => intro pi acc pc; rw [fetchGo_zero]; simp
  | succ rem ih =>
    intro pi acc pc
    cases hu : up pc with
    | err e0 => rw [fetchGo_err up qp pi acc pc rem e0 hu]; simp
    | ok resp =>
      cases hnc : resp.nextCursor with
      | none => rw [fetchGo_ok_none up qp pi acc pc rem resp hu hnc]; simp
      | some c =>
        by_cases hlen : (resp.orders.getD []).length < 250
        · rw [fetchGo_ok_short up qp pi acc pc rem resp c hu hnc hlen]; simp
        · rw [fetchGo_ok_cont up qp pi acc pc rem resp c hu hnc hlen]
          have h := ih (some c) (acc ++ resp.orders.getD []) (pc + 1)
          simpa using Nat.succ_le_succ h

/-- Peeling one full page off `pagesConcat`. -/
theorem pagesConcat_succ (up : Nat → PageResult) (pc n : Nat) :
    pagesConcat up pc (n + 1) =
      pageOrders (up pc) ++ pagesConcat up (pc + 1) n := by
  unfold pagesConcat
  rw [List.range_succ_eq_map, List.map_cons, List.flatten_cons, List.map_map]
  rw [Nat.add_zero]
  congr 1
  apply congrArg
  apply List.map_congr_left
  intro j _
  simp only [Function.comp_apply]
  congr 2
  omega

/-- Against an upstream that always keeps the loop going, the run uses
its whole allowance and returns all concatenated pages normally. -/
theorem fetchGo_full (up : Nat → PageResult) (qp : String) :
    ∀ (rem : Nat) (pi : Option String) (acc : List RawOrder) (pc : Nat),
      (∀ i, pc ≤ i → i < pc + rem → isFullPage (up i)) →
      (fetchGo up qp pi acc pc rem).requests.length = rem ∧
      (fetchGo up qp pi acc pc rem).result =
        Except.ok (acc ++ pagesConcat up pc rem) ∧
      (fetchGo up qp pi acc pc rem).pages = pc + rem := by
  intro rem
  induction rem with
  | zero =>
    intro pi acc pc _
    rw [fetchGo_zero]
    simp [pagesConcat]
  | succ rem ih =>
    intro pi acc pc hfull
    obtain ⟨resp, hu, hnc_ne, hlen⟩ := hfull pc (Nat.le_refl pc) (by omega)
    obtain ⟨c, hnc⟩ := Option.ne_none_iff_exists'.mp hnc_ne
    have hnotshort : ¬ (resp.orders.getD []).length < 250 := by omega
    rw [fetchGo_ok_cont up qp pi acc pc rem resp c hu hnc hnotshort]
    have h := ih (some c) (acc ++ resp.orders.getD []) (pc + 1)
      (fun i h1 h2 => hfull i (by omega) (by omega))
    refine ⟨by simp [h.1], ?_, by simp [h.2.2]; omega⟩
    rw [pagesConcat_succ]
    have hpage : pageOrders (up pc) = resp.orders.getD [] := by
      rw [hu]; rfl
    simp [h.2.1, hpage]

/-! The claim theorems about the fetcher. -/

/-- C3: the first request of `fetchAllOrders` carries the full query
parameters, and every request after the first is exactly the cursor
endpoint `orders.json?limit=250&page_info=<cursor>` built from the
cursor extracted from the previous response - no query parameters are
resent. -/
theorem C3_cursor_only_pagination (up : Nat → PageResult) (qp : String) :
    (fetchAllOrders up qp).requests[0]? = some (queryEndpoint qp) ∧
    (∀ k, k + 1 < (fetchAllOrders up qp).requests.length →
      (fetchAllOrders up qp).requests[k + 1]? =
        Option.map cursorEndpoint (nextCursorOf (up k))) := by
  constructor
  · exact fetchGo_first up qp none [] 0 99
  · intro k hk
    have h := fetchGo_chain up qp MAX_PAGES none [] 0 k hk
    simpa using h

/-- C3 witness: the theorem at a concrete upstream whose first
response carries cursor `CUR1`. -/
theorem C3_witness :
    (fetchAllOrders upTimeout "limit=250&status=any").requests[0]? =
      some (queryEndpoint "limit=250&status=any") ∧
    (fetchAllOrders upTimeout "limit=250&status=any").requests[0 + 1]? =
      Option.map cursorEndpoint (nextCursorOf (upTimeout 0)) :=
  ⟨(C3_cursor_only_pagination upTimeout "limit=250&status=any").1,
   (C3_cursor_only_pagination upTimeout "limit=250&status=any").2 0 (by decide)⟩

/-- C4: a request failure aborts the whole fetch - the failing request
is the last one issued and the run propagates the typed catch-block
message, never a partial order list; the message is the timeout text
for `ECONNABORTED`, the rate-limit text for HTTP 429, the
authentication text for HTTP 401, and otherwise the upstream error
body when present. -/
theorem C4_failure_aborts (up : Nat → PageResult) (qp : String) :
    (∀ k e, k < (fetchAllOrders up qp).requests.length →
      up k = PageResult.err e →
      (fetchAllOrders up qp).requests.length = k + 1 ∧
      (fetchAllOrders up qp).result = Except.error (errorMessage e)) ∧
    (∀ e : AxiosError, e.code = some "ECONNABORTED" →
      errorMessage e = "Request timeout - try selecting a smaller date range") ∧
    (∀ e : AxiosError, e.code ≠ some "ECONNABORTED" →
      e.responseStatus = some 429 →
      errorMessage e =
        "Shopify API rate limit exceeded - please wait a moment and try again") ∧
    (∀ e : AxiosError, e.code ≠ some "ECONNABORTED" →
      e.responseStatus = some 401 →
      errorMessage e = "Authentication failed - check your Shopify credentials") ∧
    (∀ (e : AxiosError) (b : String), e.code ≠ some "ECONNABORTED" →
      e.responseStatus ≠ some 429 → e.responseStatus ≠ some 401 →
      jsTruthy e.responseErrors = some b → errorMessage e = b) := by
  refine ⟨?_, ?_, ?_, ?_, ?_⟩
  · intro k e hk hup
    have h := fetchGo_abort up qp MAX_PAGES none [] 0 k e hk (by simpa using hup)
    exact h
  · intro e he
    simp [errorMessage, he]
  · intro e hc hs
    simp [errorMessage, hc, hs]
  · intro e hc hs
    simp [errorMessage, hc, hs]
  · intro e b hc h429 h401 hb
    simp [errorMessage, hc, h429, h401, hb]

/-- C4 witness: the theorem at an upstream whose second request times
out. -/
theorem C4_witness :
    upTimeout 1 = PageResult.err
      ⟨some "ECONNABORTED", none, none, some "timeout of 60000ms exceeded"⟩ ∧
    (fetchAllOrders upTimeout "limit=250&status=any").requests.length = 1 + 1 ∧
    (fetchAllOrders upTimeout "limit=250&status=any").result =
      Except.error "Request timeout - try selecting a smaller date range" := by
  have h := (C4_failure_aborts upTimeout "limit=250&status=any").1 1
    ⟨some "ECONNABORTED", none, none, some "timeout of 60000ms exceeded"⟩
    (by decide) rfl
  refine ⟨rfl, h.1, ?_⟩
  rw [h.2]
  rfl

/-- C5: against every upstream the loop issues at most `MAX_PAGES`
requests; an upstream that always keeps signalling a next (full) page
uses exactly `MAX_PAGES` requests, after which the run fires the
page-ceiling warning and still returns all accumulated orders as a
normal result. -/
theorem C5_page_ceiling :
    (∀ (up : Nat → PageResult) (qp : String),
      (fetchAllOrders up qp).requests.length ≤ MAX_PAGES) ∧
    (∀ (up : Nat → PageResult) (qp : String),
      (∀ i, i < MAX_PAGES → isFullPage (up i)) →
      (fetchAllOrders up qp).requests.length = MAX_PAGES ∧
      (fetchAllOrders up qp).result = Except.ok (pagesConcat up 0 MAX_PAGES) ∧
      warnsPageCeiling (fetchAllOrders up qp) = true) := by
  constructor
  · intro up qp
    exact fetchGo_len_le up qp MAX_PAGES none [] 0
  · intro up qp hfull
    have h := fetchGo_full up qp MAX_PAGES none [] 0
      (fun i _ hi => hfull i (by simpa using hi))
    refine ⟨h.1, ?_, ?_⟩
    · have := h.2.1
      simpa using this
    · have h1 := h.2.1
      have h2 := h.2.2
      unfold fetchAllOrders at h1 h2 ⊢
      simp [warnsPageCeiling, h1, h2]
  
/-- C5 witness: the theorem at an upstream that always answers a full
page with a next cursor. -/
theorem C5_witness :
    (fetchAllOrders upFull "limit=250&status=any").requests.length = MAX_PAGES ∧
    (fetchAllOrders upFull "limit=250&status=any").result =
      Except.ok (pagesConcat upFull 0 MAX_PAGES) ∧
    warnsPageCeiling (fetchAllOrders upFull "limit=250&status=any") = true :=
  C5_page_ceiling.2 upFull "limit=250&status=any"
    (fun i _ => ⟨⟨some (List.replicate 250 {}), some "CURX"⟩, rfl, by simp,
      by simp [List.length_replicate]⟩)

/-- C6: whenever a page response holds fewer than 250 records, the
loop issues no further request - that page's request is the last one,
whatever the link header says. -/
theorem C6_short_page_stops (up : Nat → PageResult) (qp : String) :
    ∀ k resp, k < (fetchAllOrders up qp).requests.length →
      up k = PageResult.ok resp →
      (resp.orders.getD []).length < 250 →
      (fetchAllOrders up qp).requests.length = k + 1 := by
  intro k resp hk hup hshort
  exact fetchGo_short_stop up qp MAX_PAGES none [] 0 k resp hk
    (by simpa using hup) hshort

/-- C6 witness: the theorem at an upstream whose first page holds one
record yet carries a next cursor. -/
theorem C6_witness :
    upShort 0 = PageResult.ok ⟨some [{}], some "CUR2"⟩ ∧
    (fetchAllOrders upShort "limit=250&status=any").requests.length = 0 + 1 :=
  ⟨rfl, C6_short_page_stops upShort "limit=250&status=any" 0
    ⟨some [{}], some "CUR2"⟩ (by decide) rfl (by decide)⟩

end NutOrders
